/-
Verification of the confusion-matrix and curve-aggregation logic of
urban-sound-tagging-baseline (metrics.py).

The numpy boolean arrays of the source are embedded shallowly: a 2-D array is
a pair of dimensions together with an entry function, and each numpy
operation used by the source is modelled by a Lean function on that
representation.  Operations that can raise in Python (shape mismatches in
ufuncs, sklearn index errors, pandas type errors, undefined names) return
`Except String`.
-/
import Mathlib

set_option autoImplicit false

deriving instance DecidableEq for Except

/-- A 2-D numpy boolean array of shape (rows, cols): entries outside the
shape are irrelevant, everything only ever reads indices below the bounds. -/
structure Arr2 where
  rows : Nat
  cols : Nat
  entry : Nat → Nat → Bool

/-- A 1-D numpy boolean array of shape (size,). -/
structure Arr1 where
  size : Nat
  entry : Nat → Bool

/-- np.logical_not on a 2-D array. -/
def np_logical_not2 (A : Arr2) : Arr2 :=
  ⟨A.rows, A.cols, fun n k => !(A.entry n k)⟩

/-- np.logical_not on a 1-D array. -/
def np_logical_not1 (v : Arr1) : Arr1 :=
  ⟨v.size, fun n => !(v.entry n)⟩

/-- np.tile(v[:, np.newaxis], (1, K)): replicate a column vector K times. -/
def np_tile_col (v : Arr1) (K : Nat) : Arr2 :=
  ⟨v.size, K, fun n _ => v.entry n⟩

/-- np.logical_and.reduce((A, B, C)): the tuple is first converted to a
single (3, N, K) array, which requires the three operand shapes to be
identical; otherwise numpy raises. -/
def np_logical_and_reduce3 (A B C : Arr2) : Except String Arr2 :=
  if A.rows = B.rows ∧ A.cols = B.cols ∧ A.rows = C.rows ∧ A.cols = C.cols then
    .ok ⟨A.rows, A.cols, fun n k => A.entry n k && B.entry n k && C.entry n k⟩
  else
    .error "ValueError: inhomogeneous shapes in logical_and.reduce"

/-- np.logical_or.reduce(A, axis=1): row-wise disjunction. -/
def np_logical_or_reduce_axis1 (A : Arr2) : Arr1 :=
  ⟨A.rows, fun n => (List.range A.cols).any fun k => A.entry n k⟩

/-- A binary numpy ufunc on 1-D boolean arrays, with numpy broadcasting:
equal sizes operate elementwise, a size-1 operand is stretched to the other
size, anything else raises. -/
def np_broadcast1 (f : Bool → Bool → Bool) (v w : Arr1) : Except String Arr1 :=
  if v.size = w.size then
    .ok ⟨v.size, fun n => f (v.entry n) (w.entry n)⟩
  else if v.size = 1 then
    .ok ⟨w.size, fun n => f (v.entry 0) (w.entry n)⟩
  else if w.size = 1 then
    .ok ⟨v.size, fun n => f (v.entry n) (w.entry 0)⟩
  else
    .error "ValueError: operands could not be broadcast together"

/-- np.sum of a 2-D boolean array (booleans count as 0/1). -/
def np_sum2 (A : Arr2) : Nat :=
  Finset.sum (Finset.range A.rows) fun n =>
    Finset.sum (Finset.range A.cols) fun k => (A.entry n k).toNat

/-- np.sum of a 1-D boolean array. -/
def np_sum1 (v : Arr1) : Nat :=
  Finset.sum (Finset.range v.size) fun n => (v.entry n).toNat

/-- metrics.py, `confusion_matrix_fine` (lines 8-175), statement by
statement.  Part I masks the complete tags by the negated incompleteness
vector tiled to the prediction width; Part II coarsens the prediction by a
row-wise disjunction joined with the incomplete-tag prediction; Part III
sums both regimes. -/
def confusion_matrix_fine (Y_true Y_pred : Arr2)
    (is_true_incomplete is_pred_incomplete : Arr1) :
    Except String (Nat × Nat × Nat) := do
  let is_true_complete := np_tile_col (np_logical_not1 is_true_incomplete) Y_pred.cols
  let is_TP_complete ← np_logical_and_reduce3 Y_true Y_pred is_true_complete
  let is_FP_complete ← np_logical_and_reduce3 (np_logical_not2 Y_true) Y_pred is_true_complete
  let is_FN_complete ← np_logical_and_reduce3 Y_true (np_logical_not2 Y_pred) is_true_complete
  let y_pred_coarsened_without_incomplete := np_logical_or_reduce_axis1 Y_pred
  let y_pred_coarsened ←
    np_broadcast1 (fun a b => a || b) y_pred_coarsened_without_incomplete is_pred_incomplete
  let is_TP_incomplete ← np_broadcast1 (fun a b => a && b) is_true_incomplete y_pred_coarsened
  let is_FP_incomplete ←
    np_broadcast1 (fun a b => a && b) (np_logical_not1 is_true_incomplete) is_pred_incomplete
  let is_FN_incomplete ←
    np_broadcast1 (fun a b => a && b) is_true_incomplete (np_logical_not1 y_pred_coarsened)
  let TP_complete := np_sum2 is_TP_complete
  let FP_complete := np_sum2 is_FP_complete
  let FN_complete := np_sum2 is_FN_complete
  let TP_incomplete := np_sum1 is_TP_incomplete
  let FP_incomplete := np_sum1 is_FP_incomplete
  let FN_incomplete := np_sum1 is_FN_incomplete
  return (TP_complete + TP_incomplete, FP_complete + FP_incomplete, FN_complete + FN_incomplete)

/-- metrics.py, `confusion_matrix_coarse` (lines 178-211).  It calls
sklearn.metrics.confusion_matrix, whose label set is inferred as the sorted
distinct values occurring in either vector, and then reads cm[0, 1],
cm[1, 0] and cm[1, 1].  Those reads need a 2x2 matrix, i.e. both boolean
values must occur somewhere in the two vectors; with a single inferred
label the matrix is 1x1 and the read raises IndexError. -/
def confusion_matrix_coarse (y_true y_pred : Arr1) : Except String (Nat × Nat × Nat) :=
  if y_true.size = y_pred.size then
    if ((List.range y_true.size).any fun n => y_true.entry n || y_pred.entry n) then
      if ((List.range y_true.size).any fun n => !(y_true.entry n) || !(y_pred.entry n)) then
        .ok
          (Finset.sum (Finset.range y_true.size) fun n =>
              (y_true.entry n && y_pred.entry n).toNat,
            Finset.sum (Finset.range y_true.size) fun n =>
              (!(y_true.entry n) && y_pred.entry n).toNat,
            Finset.sum (Finset.range y_true.size) fun n =>
              (y_true.entry n && !(y_pred.entry n)).toNat)
      else
        .error "IndexError: index 1 is out of bounds for axis 0 with size 1"
    else
      .error "IndexError: index 1 is out of bounds for axis 0 with size 1"
  else
    .error "ValueError: inconsistent numbers of samples"

/-- Build a 2-D array from a list of rows (rows beyond the list, or entries
beyond a row, read as false). -/
def boolMat (l : List (List Bool)) : Arr2 :=
  ⟨l.length, (l.headD []).length, fun n k => ((l.getD n []).getD k false)⟩

/-- Build a 1-D array from a list of booleans. -/
def boolVec (l : List Bool) : Arr1 :=
  ⟨l.length, fun n => l.getD n false⟩

/-- The all-false 1-D array of a given size. -/
def falseVec (N : Nat) : Arr1 := ⟨N, fun _ => false⟩

/-- Whether an `Except` computation returned normally. -/
def exceptOk {ε α : Type} : Except ε α → Bool
  | .ok _ => true
  | .error _ => false

/-- A pandas DataFrame of real-valued score columns, as consumed by
`evaluate`: an ordered list of column names, a row count, and the values of
each column. -/
structure DataFrame where
  cols : List String
  nrows : Nat
  col : String → List Rat

/-- Insert into a sorted list, keeping it sorted. -/
def insertLe {α : Type} (le : α → α → Bool) (x : α) : List α → List α
  | [] => [x]
  | y :: ys => if le x y then x :: y :: ys else y :: insertLe le x ys

/-- Ascending insertion sort, the model of Python `list.sort()` and
`ndarray.sort()`. -/
def sortLe {α : Type} (le : α → α → Bool) (l : List α) : List α :=
  l.foldr (insertLe le) []

/-- np.ravel of `df.values`: row-major flattening of the column-restricted
table. -/
def df_values_ravel (df : DataFrame) : List Rat :=
  (List.range df.nrows).flatMap fun i => df.cols.map fun c => (df.col c).getD i 0

/-- np.searchsorted(l, x) on a sorted list (left insertion point): the
number of elements strictly below x. -/
def np_searchsorted (l : List Rat) (x : Rat) : Nat :=
  l.countP fun a => decide (a < x)

/-- np.unique: sort and drop duplicates. -/
def np_unique (l : List Rat) : List Rat :=
  (sortLe (fun a b => decide (a ≤ b)) l).dedup

/-- The `mode` argument of `evaluate`, restricted to the two recognized
values (the prediction table for the chosen mode is supplied already
parsed, see `evaluate`). -/
inductive EvalMode where
  | fine
  | coarse
deriving DecidableEq

/-- One per-category DataFrame as produced (in intent) by `evaluate` and
consumed by the AUPRC aggregators, restricted to the precision and recall
columns the aggregators read. -/
structure EvalCurve where
  Rcol : List Rat
  Pcol : List Rat
deriving DecidableEq

/-- The loop body of `evaluate` (metrics.py lines 238-331), one coarse
category per call.  The source computes `columns`, restricts the
prediction table, and then executes `restricted_gt_df = gt_df[columns]`
(line 250) - but the name `gt_df` is never assigned anywhere in
`evaluate` (the parsed ground truth is bound to `gf_df` on line 226), so
Python raises NameError at that statement on the first iteration.  The
statements after it are reproduced up to the next defect and are dead
code: line 268 calls `.astype` on the tuple `(n_thresholds,)`, which would
raise AttributeError, and binds TPs, FPs, FNs to one shared zero buffer
via `(np.zeros(...),) * 3`; the fine-mode branch (line 289) would pass the
undefined names `is_true_incomplete` and `is_pred_incomplete` to
`confusion_matrix_fine`. -/
def evaluateLoop (pred_df : DataFrame) (acc : List (String × EvalCurve)) :
    List String → Except String (List (String × EvalCurve))
  | [] => .ok acc
  | coarse_id :: rest => do
    let columns :=
      sortLe (fun a b => decide (a ≤ b))
        (pred_df.cols.filter fun c => c.startsWith coarse_id && !(c.endsWith "X"))
    let restricted_pred_df : DataFrame := ⟨columns, pred_df.nrows, pred_df.col⟩
    let _restricted_gt_df : DataFrame ←
      .error "NameError: name gt_df is not defined"
    let sorted := sortLe (fun a b => decide (a ≤ b)) (df_values_ravel restricted_pred_df)
    let thresholds := np_unique (sorted.drop (np_searchsorted sorted (1 / 100)))
    let _n_thresholds := thresholds.length
    let _counts : Unit ←
      .error "AttributeError: tuple object has no attribute astype"
    -- unreachable: the iteration has already raised twice above, so the
    -- per-threshold confusion sweep and the DataFrame construction of the
    -- source never run; the recursion below is never taken
    evaluateLoop pred_df acc rest

/-- metrics.py, `evaluate` (lines 214-334).  The CSV/YAML parsing
collaborators are abstracted away: `yaml_coarse` is the list of coarse
category identifiers of the taxonomy (iteration order of
`yaml_dict["coarse"]`), `pred_df` is the prediction table parsed for the
requested mode, and `gf_df` is the parsed ground truth, bound - as in the
source - to the name `gf_df` and never to `gt_df`. -/
def evaluate (yaml_coarse : List String) (pred_df gf_df : DataFrame)
    (mode : EvalMode) : Except String (List (String × EvalCurve)) :=
  evaluateLoop pred_df [] yaml_coarse

/-- np.trapz(y, x): trapezoidal integration. -/
def np_trapz (y x : List Rat) : Rat :=
  (List.zipWith (fun p q => (q.1 - p.1) * (q.2 + p.2) / 2)
    (x.zip y) ((x.zip y).drop 1)).sum

/-- sklearn.metrics.auc(x, y): trapezoidal area with a sign flip when x is
decreasing; raises when x is not monotonic or has fewer than two points. -/
def sk_auc (x y : List Rat) : Except String Rat :=
  if x.length ≠ y.length then
    .error "ValueError: inconsistent numbers of samples"
  else if x.length < 2 then
    .error "ValueError: at least 2 points are needed to compute the area"
  else
    let dx := List.zipWith (fun a b => a - b) (x.drop 1) x
    if dx.any fun d => decide (d < 0) then
      if dx.all fun d => decide (d ≤ 0) then .ok (-(np_trapz y x))
      else .error "ValueError: x is neither increasing nor decreasing"
    else .ok (np_trapz y x)

/-- metrics.py, `micro_averaged_auprc` (lines 337-409).  The source builds
its threshold axis as `np.unique(x["threshold"] for x in df_dict.values())`:
np.unique does not iterate a generator expression, it wraps the generator
object itself in a one-element object array, so the loop runs for exactly
one "threshold" whose value is the generator.  With a non-empty `df_dict`
the loop body then evaluates `df_dict[coarse_id] > threshold`, an ordering
comparison between a float DataFrame and a generator object, which raises
TypeError.  With an empty `df_dict` the pooled counts of the single
iteration stay (0, 0, 0) (the three count names alias one zero buffer, but
every write is 0) and the computation continues to the area.  The
DataFrame part of the source's return value (and the inverted `return_df`
branch that selects it) is not modelled; the model returns the scalar
AUPRC. -/
def micro_averaged_auprc (df_dict : List (String × EvalCurve)) (return_df : Bool) :
    Except String Rat := do
  let pooled : Rat × Rat × Rat ←
    match df_dict with
    | [] => pure ((0 : Rat), (0 : Rat), (0 : Rat))
    | _ :: _ =>
      .error "TypeError: unsupported comparison between DataFrame and generator"
  let P := pooled.1 / max (pooled.1 + pooled.2.1) (1 / 2)
  let R := pooled.1 / max (pooled.1 + pooled.2.2) (1 / 2)
  let recalls := [(1 : Rat), R, 0]
  let precisions := [(0 : Rat), P, 1]
  let auprc ← sk_auc recalls precisions
  let _return_df := return_df
  pure auprc

/-- The category loop of `macro_averaged_auprc` (metrics.py lines
419-429): for each category, prepend (recall 1, precision 0), append
(recall 0, precision 1), integrate with sklearn auc over
(recalls, precisions) and collect the per-category areas in order. -/
def macroAreas : List (String × EvalCurve) → Except String (List Rat)
  | [] => .ok []
  | p :: rest => do
    let a ← sk_auc ((1 : Rat) :: (p.2.Rcol ++ [0])) ((0 : Rat) :: (p.2.Pcol ++ [1]))
    let as ← macroAreas rest
    pure (a :: as)

/-- metrics.py, `macro_averaged_auprc` (lines 413-432): average the
per-category areas of `macroAreas` uniformly with np.mean.  np.mean of an
empty list is NaN; the rationals have no NaN, so that corner is modelled
as an error. -/
def macro_averaged_auprc (df_dict : List (String × EvalCurve)) : Except String Rat := do
  let auprcs ← macroAreas df_dict
  if auprcs.length = 0 then .error "RuntimeWarning: mean of empty slice (NaN)"
  else pure (auprcs.sum / (auprcs.length : Rat))

lemma np_logical_and_reduce3_ok {A B C : Arr2} (h1 : A.rows = B.rows)
    (h2 : A.cols = B.cols) (h3 : A.rows = C.rows) (h4 : A.cols = C.cols) :
    np_logical_and_reduce3 A B C =
      .ok ⟨A.rows, A.cols, fun n k => A.entry n k && B.entry n k && C.entry n k⟩ := by
  rw [np_logical_and_reduce3, if_pos ⟨h1, h2, h3, h4⟩]

lemma np_broadcast1_same {f : Bool → Bool → Bool} {v w : Arr1} (h : v.size = w.size) :
    np_broadcast1 f v w = .ok ⟨v.size, fun n => f (v.entry n) (w.entry n)⟩ := by
  rw [np_broadcast1, if_pos h]

/-- Success path of `confusion_matrix_fine`, in the operation order of the
source: with all four sample counts equal and both matrices of width K,
the result is the sum of the Part I (complete) and Part II (incomplete)
counts. -/
lemma confusion_matrix_fine_ok (Y_true Y_pred : Arr2)
    (is_true_incomplete is_pred_incomplete : Arr1) (N K : Nat)
    (ht1 : Y_true.rows = N) (ht2 : Y_true.cols = K)
    (hp1 : Y_pred.rows = N) (hp2 : Y_pred.cols = K)
    (hi : is_true_incomplete.size = N) (hq : is_pred_incomplete.size = N) :
    confusion_matrix_fine Y_true Y_pred is_true_incomplete is_pred_incomplete =
      Except.ok
        ((Finset.sum (Finset.range N) fun n => Finset.sum (Finset.range K) fun k =>
            (Y_true.entry n k && Y_pred.entry n k && !(is_true_incomplete.entry n)).toNat) +
          (Finset.sum (Finset.range N) fun n =>
            (is_true_incomplete.entry n &&
              (((List.range K).any fun k => Y_pred.entry n k) ||
                is_pred_incomplete.entry n)).toNat),
        (Finset.sum (Finset.range N) fun n => Finset.sum (Finset.range K) fun k =>
            (!(Y_true.entry n k) && Y_pred.entry n k && !(is_true_incomplete.entry n)).toNat) +
          (Finset.sum (Finset.range N) fun n =>
            (!(is_true_incomplete.entry n) && is_pred_incomplete.entry n).toNat),
        (Finset.sum (Finset.range N) fun n => Finset.sum (Finset.range K) fun k =>
            (Y_true.entry n k && !(Y_pred.entry n k) && !(is_true_incomplete.entry n)).toNat) +
          (Finset.sum (Finset.range N) fun n =>
            (is_true_incomplete.entry n &&
              !(((List.range K).any fun k => Y_pred.entry n k) ||
                is_pred_incomplete.entry n)).toNat)) := by
  subst ht1
  subst ht2
  simp only [confusion_matrix_fine, np_tile_col, np_logical_not1, np_logical_not2,
    np_logical_or_reduce_axis1, np_logical_and_reduce3, np_broadcast1, np_sum2, np_sum1,
    hp1, hp2, hi, hq, and_self, if_true, ite_true, eq_self_iff_true, true_and,
    Except.bind, bind, pure, Except.pure]

lemma toNat_and_rot (a b c : Bool) : (a && b && c).toNat = (c && (a && b)).toNat := by
  cases a <;> cases b <;> cases c <;> rfl

/-- Column k of a 2-D array, `Y[:, k]`. -/
def colOf (A : Arr2) (k : Nat) : Arr1 := ⟨A.rows, fun n => A.entry n k⟩

lemma confusion_matrix_coarse_ok (y_true y_pred : Arr1)
    (h : y_true.size = y_pred.size)
    (hT : ∃ n, n < y_true.size ∧ (y_true.entry n = true ∨ y_pred.entry n = true))
    (hF : ∃ n, n < y_true.size ∧ (y_true.entry n = false ∨ y_pred.entry n = false)) :
    confusion_matrix_coarse y_true y_pred =
      Except.ok
        (Finset.sum (Finset.range y_true.size) fun n =>
            (y_true.entry n && y_pred.entry n).toNat,
          Finset.sum (Finset.range y_true.size) fun n =>
            (!(y_true.entry n) && y_pred.entry n).toNat,
          Finset.sum (Finset.range y_true.size) fun n =>
            (y_true.entry n && !(y_pred.entry n)).toNat) := by
  have hT' : ((List.range y_true.size).any fun n =>
      y_true.entry n || y_pred.entry n) = true := by
    simp only [List.any_eq_true, List.mem_range, Bool.or_eq_true]
    obtain ⟨n, hn, hv⟩ := hT
    exact ⟨n, hn, hv⟩
  have hF' : ((List.range y_true.size).any fun n =>
      !(y_true.entry n) || !(y_pred.entry n)) = true := by
    simp only [List.any_eq_true, List.mem_range, Bool.or_eq_true, Bool.not_eq_true']
    obtain ⟨n, hn, hv⟩ := hF
    exact ⟨n, hn, hv⟩
  rw [confusion_matrix_coarse, if_pos h, if_pos hT', if_pos hF']

/-- Claim C1: on shape-consistent inputs (N x K matrices, N-vectors),
`confusion_matrix_fine` returns the sum of the complete regime (per-tag
TP/FP/FN over the rows whose ground truth is complete) and the incomplete
regime (one TP or FN per incomplete-ground-truth row according to the
coarsened prediction, and one FP per complete row whose incomplete marker
is predicted). -/
theorem claim_C1 (Y_true Y_pred : Arr2)
    (is_true_incomplete is_pred_incomplete : Arr1) (N K : Nat)
    (ht1 : Y_true.rows = N) (ht2 : Y_true.cols = K)
    (hp1 : Y_pred.rows = N) (hp2 : Y_pred.cols = K)
    (hi : is_true_incomplete.size = N) (hq : is_pred_incomplete.size = N) :
    confusion_matrix_fine Y_true Y_pred is_true_incomplete is_pred_incomplete =
      Except.ok
        ((Finset.sum (Finset.range N) fun n => Finset.sum (Finset.range K) fun k =>
            (!(is_true_incomplete.entry n) &&
              (Y_true.entry n k && Y_pred.entry n k)).toNat) +
          (Finset.sum (Finset.range N) fun n =>
            (is_true_incomplete.entry n &&
              (((List.range K).any fun k => Y_pred.entry n k) ||
                is_pred_incomplete.entry n)).toNat),
        (Finset.sum (Finset.range N) fun n => Finset.sum (Finset.range K) fun k =>
            (!(is_true_incomplete.entry n) &&
              (!(Y_true.entry n k) && Y_pred.entry n k)).toNat) +
          (Finset.sum (Finset.range N) fun n =>
            (!(is_true_incomplete.entry n) && is_pred_incomplete.entry n).toNat),
        (Finset.sum (Finset.range N) fun n => Finset.sum (Finset.range K) fun k =>
            (!(is_true_incomplete.entry n) &&
              (Y_true.entry n k && !(Y_pred.entry n k))).toNat) +
          (Finset.sum (Finset.range N) fun n =>
            (is_true_incomplete.entry n &&
              !(((List.range K).any fun k => Y_pred.entry n k) ||
                is_pred_incomplete.entry n)).toNat)) := by
  rw [confusion_matrix_fine_ok Y_true Y_pred is_true_incomplete is_pred_incomplete N K
    ht1 ht2 hp1 hp2 hi hq]
  refine congrArg Except.ok ?_
  simp only [Prod.mk.injEq]
  refine ⟨?_, ?_, ?_⟩ <;>
    · congr 1
      exact Finset.sum_congr rfl fun n _ => Finset.sum_congr rfl fun k _ =>
        toNat_and_rot _ _ _

/-- Concrete instance of claim C1. -/
theorem claim_C1_witness :
    confusion_matrix_fine (boolMat [[true, false], [true, true]])
      (boolMat [[true, true], [false, true]])
      (boolVec [false, true]) (boolVec [false, true]) = Except.ok (2, 1, 0) := by
  rw [claim_C1 (boolMat [[true, false], [true, true]])
    (boolMat [[true, true], [false, true]])
    (boolVec [false, true]) (boolVec [false, true]) 2 2 rfl rfl rfl rfl rfl rfl]
  decide

/-- Claim C7: on shape-consistent inputs, the FP component returned by
`confusion_matrix_fine` decomposes as the complete-regime per-tag FP count
plus one FP for every sample with true_incomplete false and
pred_incomplete true; the incomplete-regime summand does not mention
`Y_pred` at all, so it is unchanged by any change of the complete-tag
predictions. -/
theorem claim_C7 (Y_true Y_pred : Arr2)
    (is_true_incomplete is_pred_incomplete : Arr1) (N K : Nat)
    (ht1 : Y_true.rows = N) (ht2 : Y_true.cols = K)
    (hp1 : Y_pred.rows = N) (hp2 : Y_pred.cols = K)
    (hi : is_true_incomplete.size = N) (hq : is_pred_incomplete.size = N) :
    Except.map (fun t => t.2.1)
        (confusion_matrix_fine Y_true Y_pred is_true_incomplete is_pred_incomplete) =
      Except.ok
        ((Finset.sum (Finset.range N) fun n => Finset.sum (Finset.range K) fun k =>
            (!(is_true_incomplete.entry n) &&
              (!(Y_true.entry n k) && Y_pred.entry n k)).toNat) +
          (Finset.sum (Finset.range N) fun n =>
            (!(is_true_incomplete.entry n) && is_pred_incomplete.entry n).toNat)) := by
  rw [confusion_matrix_fine_ok Y_true Y_pred is_true_incomplete is_pred_incomplete N K
    ht1 ht2 hp1 hp2 hi hq]
  simp only [Except.map]
  refine congrArg Except.ok ?_
  congr 1
  exact Finset.sum_congr rfl fun n _ => Finset.sum_congr rfl fun k _ =>
    toNat_and_rot _ _ _

/-- Concrete instance of claim C7. -/
theorem claim_C7_witness :
    Except.map (fun t => t.2.1)
        (confusion_matrix_fine (boolMat [[false]]) (boolMat [[true]])
          (boolVec [false]) (boolVec [true])) = Except.ok 2 := by
  rw [claim_C7 (boolMat [[false]]) (boolMat [[true]])
    (boolVec [false]) (boolVec [true]) 1 1 rfl rfl rfl rfl rfl rfl]
  decide

/-- Claim C5 (amended): with all-false incompleteness vectors and every
column pair containing both boolean values, `confusion_matrix_fine`
returns the componentwise sum over the K columns of what
`confusion_matrix_coarse` returns on the corresponding column pair.  (The
amendment is the non-degeneracy condition: on a constant column pair
`confusion_matrix_coarse` raises instead of returning counts, see the
counterexample.) -/
theorem claim_C5 (Y_true Y_pred : Arr2) (N K : Nat)
    (ht1 : Y_true.rows = N) (ht2 : Y_true.cols = K)
    (hp1 : Y_pred.rows = N) (hp2 : Y_pred.cols = K)
    (hnd : ∀ k, k < K →
      ((∃ n, n < N ∧ (Y_true.entry n k = true ∨ Y_pred.entry n k = true)) ∧
        (∃ n, n < N ∧ (Y_true.entry n k = false ∨ Y_pred.entry n k = false)))) :
    confusion_matrix_fine Y_true Y_pred (falseVec N) (falseVec N) =
      Except.ok
        (Finset.sum (Finset.range K) fun k => Finset.sum (Finset.range N) fun n =>
            (Y_true.entry n k && Y_pred.entry n k).toNat,
          Finset.sum (Finset.range K) fun k => Finset.sum (Finset.range N) fun n =>
            (!(Y_true.entry n k) && Y_pred.entry n k).toNat,
          Finset.sum (Finset.range K) fun k => Finset.sum (Finset.range N) fun n =>
            (Y_true.entry n k && !(Y_pred.entry n k)).toNat) ∧
      ∀ k, k < K →
        confusion_matrix_coarse (colOf Y_true k) (colOf Y_pred k) =
          Except.ok
            (Finset.sum (Finset.range N) fun n =>
                (Y_true.entry n k && Y_pred.entry n k).toNat,
              Finset.sum (Finset.range N) fun n =>
                (!(Y_true.entry n k) && Y_pred.entry n k).toNat,
              Finset.sum (Finset.range N) fun n =>
                (Y_true.entry n k && !(Y_pred.entry n k)).toNat) := by
  subst ht1
  constructor
  · rw [confusion_matrix_fine_ok Y_true Y_pred (falseVec Y_true.rows) (falseVec Y_true.rows)
      Y_true.rows K rfl ht2 hp1 hp2 rfl rfl]
    refine congrArg Except.ok ?_
    simp only [falseVec, Bool.not_false, Bool.and_true, Bool.false_and, Bool.true_and,
      Bool.and_false, Bool.toNat_false, Finset.sum_const_zero, add_zero]
    simp only [Prod.mk.injEq]
    exact ⟨Finset.sum_comm, Finset.sum_comm, Finset.sum_comm⟩
  · intro k hk
    exact confusion_matrix_coarse_ok (colOf Y_true k) (colOf Y_pred k)
      (by simp [colOf, hp1]) ((hnd k hk).1) ((hnd k hk).2)

/-- Concrete instance of claim C5 (amended), at a non-degenerate column. -/
theorem claim_C5_witness :
    confusion_matrix_fine (boolMat [[true], [false]]) (boolMat [[false], [true]])
        (falseVec 2) (falseVec 2) = Except.ok (0, 1, 1) ∧
      confusion_matrix_coarse (colOf (boolMat [[true], [false]]) 0)
        (colOf (boolMat [[false], [true]]) 0) = Except.ok (0, 1, 1) := by
  have h := claim_C5 (boolMat [[true], [false]]) (boolMat [[false], [true]]) 2 1
    rfl rfl rfl rfl
    (by
      intro k hk
      have hk0 : k = 0 := by omega
      subst hk0
      exact ⟨⟨0, by decide⟩, ⟨1, by decide⟩⟩)
  refine ⟨?_, ?_⟩
  · rw [h.1]; decide
  · rw [h.2 0 (by decide)]; decide

/-- Counterexample to claim C5 as stated: on the single-sample,
single-column all-true input, `confusion_matrix_fine` (with all-false
incompleteness vectors) returns counts, but `confusion_matrix_coarse` on
the column pair raises (sklearn infers a single label, its confusion
matrix is 1x1, and reading cm[0, 1] is out of bounds), so no componentwise
sum of per-column coarse results exists. -/
theorem claim_C5_counterexample :
    confusion_matrix_fine (boolMat [[true]]) (boolMat [[true]])
        (falseVec 1) (falseVec 1) = Except.ok (1, 0, 0) ∧
      confusion_matrix_coarse (colOf (boolMat [[true]]) 0) (colOf (boolMat [[true]]) 0) =
        Except.error "IndexError: index 1 is out of bounds for axis 0 with size 1" := by
  decide

/-- Claim C6 (amended): on equal-length vectors in which both boolean
values occur (across the union of the two vectors, which is how sklearn
infers the label set), `confusion_matrix_coarse` returns TP = number of
indices with true and predicted, FP = number with not-true and predicted,
FN = number with true and not-predicted. -/
theorem claim_C6 (y_true y_pred : Arr1)
    (h : y_true.size = y_pred.size)
    (hT : ∃ n, n < y_true.size ∧ (y_true.entry n = true ∨ y_pred.entry n = true))
    (hF : ∃ n, n < y_true.size ∧ (y_true.entry n = false ∨ y_pred.entry n = false)) :
    confusion_matrix_coarse y_true y_pred =
      Except.ok
        ((Finset.filter (fun n => y_true.entry n = true ∧ y_pred.entry n = true)
            (Finset.range y_true.size)).card,
          (Finset.filter (fun n => y_true.entry n = false ∧ y_pred.entry n = true)
            (Finset.range y_true.size)).card,
          (Finset.filter (fun n => y_true.entry n = true ∧ y_pred.entry n = false)
            (Finset.range y_true.size)).card) := by
  rw [confusion_matrix_coarse_ok y_true y_pred h hT hF]
  refine congrArg Except.ok ?_
  simp only [Prod.mk.injEq]
  refine ⟨?_, ?_, ?_⟩ <;>
    · rw [Finset.card_filter]
      exact Finset.sum_congr rfl fun n _ => by
        cases hy : y_true.entry n <;> cases hp : y_pred.entry n <;> simp [hy, hp]

/-- Concrete instance of claim C6 (amended): the spec scenario
y_true = [1,0,1,1], y_pred = [1,1,0,1] gives TP = 2, FP = 1, FN = 1. -/
theorem claim_C6_witness :
    confusion_matrix_coarse (boolVec [true, false, true, true])
      (boolVec [true, true, false, true]) = Except.ok (2, 1, 1) := by
  rw [claim_C6 (boolVec [true, false, true, true]) (boolVec [true, true, false, true])
    rfl ⟨0, by decide⟩ ⟨1, by decide⟩]
  decide

/-- Counterexample to claim C6 as stated: on the all-true pair of vectors
the claim predicts TP = 2, FP = 0, FN = 0, but sklearn infers the single
label True, builds a 1x1 confusion matrix, and the cm[0, 1] read raises
IndexError, so no counts are returned. -/
theorem claim_C6_counterexample :
    confusion_matrix_coarse (boolVec [true, true]) (boolVec [true, true]) =
      Except.error "IndexError: index 1 is out of bounds for axis 0 with size 1" := by
  decide

lemma np_logical_and_reduce3_error {A B C : Arr2}
    (h : ¬(A.rows = B.rows ∧ A.cols = B.cols ∧ A.rows = C.rows ∧ A.cols = C.cols)) :
    np_logical_and_reduce3 A B C =
      .error "ValueError: inhomogeneous shapes in logical_and.reduce" := by
  rw [np_logical_and_reduce3, if_neg h]

lemma np_broadcast1_left1 {f : Bool → Bool → Bool} {v w : Arr1}
    (h : ¬v.size = w.size) (h1 : v.size = 1) :
    np_broadcast1 f v w = .ok ⟨w.size, fun n => f (v.entry 0) (w.entry n)⟩ := by
  rw [np_broadcast1, if_neg h, if_pos h1]

lemma np_broadcast1_right1 {f : Bool → Bool → Bool} {v w : Arr1}
    (h : ¬v.size = w.size) (h1 : ¬v.size = 1) (h2 : w.size = 1) :
    np_broadcast1 f v w = .ok ⟨v.size, fun n => f (v.entry n) (w.entry 0)⟩ := by
  rw [np_broadcast1, if_neg h, if_neg h1, if_pos h2]

lemma np_broadcast1_error {f : Bool → Bool → Bool} {v w : Arr1}
    (h : ¬v.size = w.size) (h1 : ¬v.size = 1) (h2 : ¬w.size = 1) :
    np_broadcast1 f v w = .error "ValueError: operands could not be broadcast together" := by
  rw [np_broadcast1, if_neg h, if_neg h1, if_neg h2]

/-- Claim C9 (amended): with both matrices K columns wide,
`confusion_matrix_fine` returns normally exactly when the sample counts
are broadcast-compatible: `Y_true`, `Y_pred` and `true_incomplete` must
share one sample count N, and `pred_incomplete` must have length N or
length 1 (or N itself is 1, in which case any `pred_incomplete` length
broadcasts).  It raises a shape error in every other case.  (The
amendment is the broadcasting escape hatch: a length-1
`pred_incomplete` makes the function return normally even though the
sample counts differ, see the counterexample.) -/
theorem claim_C9 (Y_true Y_pred : Arr2)
    (is_true_incomplete is_pred_incomplete : Arr1) (K : Nat)
    (ht2 : Y_true.cols = K) (hp2 : Y_pred.cols = K) :
    exceptOk (confusion_matrix_fine Y_true Y_pred is_true_incomplete is_pred_incomplete)
        = true ↔
      (Y_pred.rows = Y_true.rows ∧ is_true_incomplete.size = Y_true.rows ∧
        (is_pred_incomplete.size = Y_true.rows ∨ is_pred_incomplete.size = 1 ∨
          Y_true.rows = 1)) := by
  have hc : Y_true.cols = Y_pred.cols := by rw [ht2, hp2]
  by_cases h1 : Y_true.rows = Y_pred.rows ∧ Y_true.cols = Y_pred.cols ∧
      Y_true.rows = is_true_incomplete.size ∧ Y_true.cols = Y_pred.cols
  · obtain ⟨hr, -, hs, -⟩ := h1
    by_cases c1 : Y_pred.rows = is_pred_incomplete.size
    · have c1' : is_pred_incomplete.size = Y_true.rows := c1.symm.trans hr.symm
      simp [confusion_matrix_fine, np_tile_col, np_logical_not1, np_logical_not2,
        np_logical_or_reduce_axis1, np_logical_and_reduce3, np_broadcast1, exceptOk, hc,
        bind, Except.bind, pure, Except.pure, ← hr, ← hs, c1']
    · by_cases c2 : Y_pred.rows = 1
      · have hr1 : Y_true.rows = 1 := hr.trans c2
        have hs1 : is_true_incomplete.size = 1 := hs.symm.trans hr1
        have c1' : ¬(1 = is_pred_incomplete.size) := by rw [c2] at c1; exact c1
        simp [confusion_matrix_fine, np_tile_col, np_logical_not1, np_logical_not2,
          np_logical_or_reduce_axis1, np_logical_and_reduce3, np_broadcast1, exceptOk, hc,
          bind, Except.bind, pure, Except.pure, hr1, c2, hs1, c1']
      · by_cases c3 : is_pred_incomplete.size = 1
        · have c2' : ¬(Y_true.rows = 1) := fun h => c2 (hr.symm.trans h)
          simp [confusion_matrix_fine, np_tile_col, np_logical_not1, np_logical_not2,
            np_logical_or_reduce_axis1, np_logical_and_reduce3, np_broadcast1, exceptOk, hc,
            bind, Except.bind, pure, Except.pure, ← hr, ← hs, c3, c2']
        · have c1'' : ¬(Y_true.rows = is_pred_incomplete.size) :=
            fun h => c1 (hr.symm.trans h)
          have c1''' : ¬(is_pred_incomplete.size = Y_true.rows) := fun h => c1'' h.symm
          have c2' : ¬(Y_true.rows = 1) := fun h => c2 (hr.symm.trans h)
          simp [confusion_matrix_fine, np_tile_col, np_logical_not1, np_logical_not2,
            np_logical_or_reduce_axis1, np_logical_and_reduce3, np_broadcast1, exceptOk, hc,
            bind, Except.bind, pure, Except.pure, ← hr, ← hs, c1'', c1''', c2', c3]
  · have e1 : np_logical_and_reduce3 Y_true Y_pred
        (np_tile_col (np_logical_not1 is_true_incomplete) Y_pred.cols) =
        .error "ValueError: inhomogeneous shapes in logical_and.reduce" :=
      np_logical_and_reduce3_error
        (by simpa [np_tile_col, np_logical_not1] using h1)
    simp only [confusion_matrix_fine, e1, bind, Except.bind, exceptOk]
    constructor
    · intro hcontr
      exact absurd hcontr (by simp)
    · rintro ⟨ha, hb, -⟩
      exact absurd ⟨ha.symm, hc, hb.symm, hc⟩ h1

/-- Concrete instance of claim C9 (amended), with a broadcastable
length-1 incomplete-prediction vector. -/
theorem claim_C9_witness :
    exceptOk (confusion_matrix_fine (boolMat [[false], [true]]) (boolMat [[false], [true]])
          (boolVec [false, true]) (boolVec [true])) = true ↔
      ((boolMat [[false], [true]]).rows = (boolMat [[false], [true]]).rows ∧
        (boolVec [false, true]).size = (boolMat [[false], [true]]).rows ∧
        ((boolVec [true]).size = (boolMat [[false], [true]]).rows ∨
          (boolVec [true]).size = 1 ∨ (boolMat [[false], [true]]).rows = 1)) :=
  claim_C9 (boolMat [[false], [true]]) (boolMat [[false], [true]])
    (boolVec [false, true]) (boolVec [true]) 1 rfl rfl

/-- Counterexample to claim C9 as stated: the four inputs have sample
counts 2, 2, 2 and 1, which are not all equal, yet the function returns
counts normally - numpy broadcasts the length-1 `pred_incomplete` vector
instead of raising. -/
theorem claim_C9_counterexample :
    confusion_matrix_fine (boolMat [[true], [true]]) (boolMat [[true], [true]])
      (boolVec [false, false]) (boolVec [false]) = Except.ok (2, 0, 0) := by
  decide

lemma macroAreas_ok {c : EvalCurve} {a : Rat}
    (hsk : sk_auc ((1 : Rat) :: (c.Rcol ++ [0])) ((0 : Rat) :: (c.Pcol ++ [1])) = .ok a) :
    ∀ l : List (String × EvalCurve), (∀ p ∈ l, p.2 = c) →
      macroAreas l = .ok (List.replicate l.length a)
  | [], _ => rfl
  | p :: rest, hall => by
    have hp : p.2 = c := hall p (List.mem_cons_self p rest)
    have ih := macroAreas_ok hsk rest fun q hq => hall q (List.mem_cons_of_mem p hq)
    simp only [macroAreas, hp, hsk, ih, bind, Except.bind, pure, Except.pure,
      List.length_cons, List.replicate_succ]

/-- Claim C4: macro-averaging is the unweighted mean of the per-category
endpoint-extended areas, so whenever every category of a non-empty
dictionary carries the same curve (in particular a dictionary of exactly
two identical curves), the macro-averaged AUPRC equals the AUPRC of that
single curve (the sklearn auc of the curve extended with the prepended
(recall 1, precision 0) and appended (recall 0, precision 1) points). -/
theorem claim_C4 (d : List (String × EvalCurve)) (c : EvalCurve)
    (hne : d ≠ []) (hall : ∀ p ∈ d, p.2 = c) :
    macro_averaged_auprc d =
      sk_auc ((1 : Rat) :: (c.Rcol ++ [0])) ((0 : Rat) :: (c.Pcol ++ [1])) := by
  cases hsk : sk_auc ((1 : Rat) :: (c.Rcol ++ [0])) ((0 : Rat) :: (c.Pcol ++ [1])) with
  | error s =>
    cases d with
    | nil => exact absurd rfl hne
    | cons p rest =>
      have hp : p.2 = c := hall p (List.mem_cons_self p rest)
      simp only [macro_averaged_auprc, macroAreas, hp, hsk, bind, Except.bind]
  | ok a =>
    have hm := macroAreas_ok hsk d hall
    have hlen : d.length ≠ 0 := fun h => hne (List.length_eq_zero.mp h)
    simp only [macro_averaged_auprc, hm, bind, Except.bind, List.length_replicate,
      if_neg hlen, List.sum_replicate, nsmul_eq_mul, pure, Except.pure]
    rw [mul_div_cancel_left₀ a (Nat.cast_ne_zero.mpr hlen)]

/-- Concrete instance of claim C4: two categories carrying the same
one-row curve. -/
theorem claim_C4_witness :
    macro_averaged_auprc
        [("1", EvalCurve.mk [1] [0]), ("2", EvalCurve.mk [1] [0])] =
      sk_auc ((1 : Rat) :: ((EvalCurve.mk [1] [0]).Rcol ++ [0]))
        ((0 : Rat) :: ((EvalCurve.mk [1] [0]).Pcol ++ [1])) :=
  claim_C4 [("1", EvalCurve.mk [1] [0]), ("2", EvalCurve.mk [1] [0])]
    (EvalCurve.mk [1] [0]) (by decide) (by decide)

/-- Claim C10: as soon as the taxonomy has at least one coarse category,
`evaluate` raises NameError on the unassigned name `gt_df` in the first
loop iteration (the parsed ground truth was bound to `gf_df`), before any
threshold sweep completes, and therefore never returns the dictionary of
per-category curves. -/
theorem claim_C10 (yaml_coarse : List String) (pred_df gf_df : DataFrame)
    (mode : EvalMode) (h : yaml_coarse ≠ []) :
    evaluate yaml_coarse pred_df gf_df mode =
      Except.error "NameError: name gt_df is not defined" := by
  cases yaml_coarse with
  | nil => exact absurd rfl h
  | cons a rest => rfl

/-- Concrete instance of claim C10. -/
theorem claim_C10_witness :
    evaluate ["3"] (DataFrame.mk ["3"] 1 fun _ => [1 / 2])
        (DataFrame.mk ["3"] 1 fun _ => [1]) EvalMode.coarse =
      Except.error "NameError: name gt_df is not defined" :=
  claim_C10 ["3"] (DataFrame.mk ["3"] 1 fun _ => [1 / 2])
    (DataFrame.mk ["3"] 1 fun _ => [1]) EvalMode.coarse (by decide)

/-- Claim C2 (code evaluation): at a concrete coarse-mode input with one
category and two samples, `evaluate` raises NameError instead of building
the per-category threshold curve the claim describes. -/
theorem claim_C2_crash :
    evaluate ["1"] (DataFrame.mk ["1"] 2 fun _ => [3 / 10, 7 / 10])
        (DataFrame.mk ["1"] 2 fun _ => [1, 0]) EvalMode.coarse =
      Except.error "NameError: name gt_df is not defined" := by
  rfl

/-- Claim C8 (code evaluation): at a concrete fine-mode input, `evaluate`
raises NameError before any precision/recall/F1 column is ever computed. -/
theorem claim_C8_crash :
    evaluate ["2"] (DataFrame.mk ["2-1", "2-X"] 1 fun _ => [9 / 10])
        (DataFrame.mk ["2-1", "2-X"] 1 fun _ => [1]) EvalMode.fine =
      Except.error "NameError: name gt_df is not defined" := by
  rfl

/-- Claim C3 (code evaluation): on a non-empty dictionary of curves,
`micro_averaged_auprc` raises TypeError (the threshold axis is a
one-element object array holding a generator, and comparing a DataFrame
against it fails) instead of pooling counts across categories. -/
theorem claim_C3_crash :
    micro_averaged_auprc [("1", EvalCurve.mk [1 / 2] [2 / 3])] false =
      Except.error "TypeError: unsupported comparison between DataFrame and generator" := by
  rfl
